import Mathlib

/-!
Verification of the echo-service webhook store and signature verifier.

A shallow embedding of `src/echo_service/main.py` (and the `WebhookEntry`
model from `src/echo_service/models.py`).

Conventions of the embedding:

* A Python `str` is a sequence of Unicode code points, embedded as `List Char`
  (`PyStr`).  A Python `bytes` value is a `List Nat` whose elements are below
  256.
* `str.encode("utf-8")` is `pyEncode`; `bytes.decode(errors="replace")` is
  `pyBytesDecode true`, which returns an `Option` so that the strict decoder
  (`pyBytesDecode false`) and the `except`-clauses around decoding can be
  modelled; totality of the replace-mode decoder is proved, not assumed.
* The shared `deque(maxlen=1000)` store is a `List WebhookEntry`, newest
  first; `store.appendleft` is `insertEntry`, and Python list slicing
  (`list(store)[start:end]`) is `pySlice` with full negative-index
  normalization.
* Machine-independent integers: Python `int` is `Int` (arbitrary precision in
  both).  The 32-bit words inside SHA-256 are `Nat` reduced modulo `2^32`.
* `int(str)` is `pyIntParse`, with CPython's whitespace set and all runs of
  Unicode decimal digits; `hmac.compare_digest` on strings is
  `pyCompareDigest`, an `Option Bool` whose `none` is the `TypeError`
  CPython raises on non-ASCII arguments — so `verify_mlflow_signature`
  returns `Option Bool`, `none` marking a raised exception.
* Current time (`time.time()`), the generated uuid, and the outcome of
  `await request.json()` are explicit parameters of the embedded handlers.
-/

set_option maxRecDepth 100000
set_option maxHeartbeats 4000000

namespace EchoService

/-- A Python `str`: a sequence of Unicode code points. -/
abbrev PyStr := List Char

/-! ## UTF-8 encoding (`str.encode("utf-8")`) -/

/-- UTF-8 encoding of a single code point (1 to 4 bytes). -/
def pyEncodeChar (c : Char) : List Nat :=
  let n := c.toNat
  if n < 128 then [n]
  else if n < 2048 then [192 + n / 64, 128 + n % 64]
  else if n < 65536 then [224 + n / 4096, 128 + n / 64 % 64, 128 + n % 64]
  else [240 + n / 262144, 128 + n / 4096 % 64, 128 + n / 64 % 64, 128 + n % 64]

/-- `s.encode("utf-8")`: UTF-8 bytes of a Python string. -/
def pyEncode (s : PyStr) : List Nat :=
  s.foldr (fun c acc => pyEncodeChar c ++ acc) []

/-! ## UTF-8 decoding (`bytes.decode`, strict and `errors="replace"`) -/

/-- A UTF-8 continuation byte: `0x80 ≤ b < 0xC0`. -/
def utf8Cont (b : Nat) : Bool := 128 ≤ b && b < 192

/-- Allowed first continuation byte after a 3-byte lead (excludes overlong
encodings after `0xE0` and surrogates after `0xED`). -/
def utf8Cont3 (lead c : Nat) : Bool :=
  if lead = 224 then 160 ≤ c && c < 192
  else if lead = 237 then 128 ≤ c && c < 160
  else utf8Cont c

/-- Allowed first continuation byte after a 4-byte lead (excludes overlong
encodings after `0xF0` and code points beyond U+10FFFF after `0xF4`). -/
def utf8Cont4 (lead c : Nat) : Bool :=
  if lead = 240 then 144 ≤ c && c < 192
  else if lead = 244 then 128 ≤ c && c < 144
  else utf8Cont c

/-- Worker for `pyBytesDecode`: each step consumes at least one byte, and the
fuel drops by exactly one per step, so with fuel at least the list length the
fuel never runs out (`pyBytesDecodeAux_isSome` below). -/
def pyBytesDecodeAux (replace : Bool) : Nat → List Nat → Option PyStr
  | _, [] => some []
  | 0, _ :: _ => none
  | fuel + 1, b :: rest =>
    if b < 128 then
      (pyBytesDecodeAux replace fuel rest).map fun cs => Char.ofNat b :: cs
    else if 194 ≤ b && b ≤ 223 then
      match rest with
      | c1 :: rest2 =>
        if utf8Cont c1 then
          (pyBytesDecodeAux replace fuel rest2).map fun cs =>
            Char.ofNat ((b - 192) * 64 + (c1 - 128)) :: cs
        else if replace then
          (pyBytesDecodeAux replace fuel rest).map fun cs =>
            Char.ofNat 65533 :: cs
        else none
      | [] =>
        if replace then some [Char.ofNat 65533] else none
    else if 224 ≤ b && b ≤ 239 then
      match rest with
      | c1 :: c2 :: rest3 =>
        if utf8Cont3 b c1 && utf8Cont c2 then
          (pyBytesDecodeAux replace fuel rest3).map fun cs =>
            Char.ofNat ((b - 224) * 4096 + (c1 - 128) * 64 + (c2 - 128)) :: cs
        else if replace then
          (pyBytesDecodeAux replace fuel rest).map fun cs =>
            Char.ofNat 65533 :: cs
        else none
      | _ =>
        if replace then
          (pyBytesDecodeAux replace fuel rest).map fun cs =>
            Char.ofNat 65533 :: cs
        else none
    else if 240 ≤ b && b ≤ 244 then
      match rest with
      | c1 :: c2 :: c3 :: rest4 =>
        if utf8Cont4 b c1 && utf8Cont c2 && utf8Cont c3 then
          (pyBytesDecodeAux replace fuel rest4).map fun cs =>
            Char.ofNat
              ((b - 240) * 262144 + (c1 - 128) * 4096 + (c2 - 128) * 64 +
                (c3 - 128)) :: cs
        else if replace then
          (pyBytesDecodeAux replace fuel rest).map fun cs =>
            Char.ofNat 65533 :: cs
        else none
      | _ =>
        if replace then
          (pyBytesDecodeAux replace fuel rest).map fun cs =>
            Char.ofNat 65533 :: cs
        else none
    else
      if replace then
        (pyBytesDecodeAux replace fuel rest).map fun cs =>
          Char.ofNat 65533 :: cs
      else none

/-- `bytes.decode("utf-8", errors=...)`.  `replace = false` is the strict
decoder, which fails (`none`) on the first invalid sequence; `replace = true`
is `errors="replace"`, which emits U+FFFD for an invalid lead byte and
resumes after it. -/
def pyBytesDecode (replace : Bool) (bs : List Nat) : Option PyStr :=
  pyBytesDecodeAux replace bs.length bs

/-! ## Python `int(str)` -/

/-- The code points that `int()` strips as surrounding whitespace, checked
against CPython: ASCII 9-13 and 32, NEL (U+0085), no-break space (U+00A0),
the Ogham space mark, the U+2000-200A spaces, line and paragraph
separators, narrow no-break space, medium mathematical space and the
ideographic space. -/
def isPyWs (c : Char) : Bool :=
  let n := c.toNat
  (9 ≤ n && n ≤ 13) || n == 32 || n == 133 || n == 160 || n == 5760 ||
    (8192 ≤ n && n ≤ 8202) || n == 8232 || n == 8233 || n == 8239 ||
    n == 8287 || n == 12288

/-- First code points of the 66 runs of Unicode decimal digits (category
Nd).  Each run is ten consecutive code points with decimal values 0-9,
and these runs are exactly the digits `int()` accepts (checked against
CPython over the full code-point range). -/
def pyDigitBlockStarts : List Nat :=
  [48, 1632, 1776, 1984, 2406, 2534, 2662, 2790, 2918, 3046, 3174,
   3302, 3430, 3558, 3664, 3792, 3872, 4160, 4240, 6112, 6160, 6470,
   6608, 6784, 6800, 6992, 7088, 7232, 7248, 42528, 43216, 43264,
   43472, 43504, 43600, 44016, 65296, 66720, 68912, 69734, 69872,
   69942, 70096, 70384, 70736, 70864, 71248, 71360, 71472, 71904,
   72016, 72784, 73040, 73120, 92768, 92864, 93008, 120782, 120792,
   120802, 120812, 120822, 123200, 123632, 125264, 130032]

/-- The decimal value of a character when it is a Unicode decimal digit,
`none` otherwise. -/
def pyDecimalDigit (c : Char) : Option Nat :=
  (pyDigitBlockStarts.find? fun s => s ≤ c.toNat && c.toNat < s + 10).map
    fun s => c.toNat - s

/-- Digits of a Python integer literal after the first digit: Unicode
decimal digits with single underscores allowed between digits. -/
def pyDigitsRun : List Char → Nat → Option Nat
  | [], acc => some acc
  | '_' :: c :: cs, acc =>
    match pyDecimalDigit c with
    | some d => pyDigitsRun cs (acc * 10 + d)
    | Option.none => Option.none
  | ['_'], _ => Option.none
  | c :: cs, acc =>
    match pyDecimalDigit c with
    | some d => pyDigitsRun cs (acc * 10 + d)
    | Option.none => Option.none

/-- A nonempty digit run (with internal underscores) as a natural number. -/
def pyIntDigits : List Char → Option Nat
  | c :: cs =>
    match pyDecimalDigit c with
    | some d => pyDigitsRun cs d
    | Option.none => Option.none
  | [] => Option.none

/-- Strip leading and trailing whitespace, as `int()` does. -/
def pyStrip (s : PyStr) : PyStr :=
  ((s.dropWhile isPyWs).reverse.dropWhile isPyWs).reverse

/-- Python `int(s)` on a string: optional surrounding whitespace (the
`int()` whitespace set), an optional ASCII sign, then Unicode decimal
digits with single underscores between digits; `none` models the
`ValueError` raised on anything else. -/
def pyIntParse (s : PyStr) : Option Int :=
  match pyStrip s with
  | '-' :: rest => (pyIntDigits rest).map fun n => -(n : Int)
  | '+' :: rest => (pyIntDigits rest).map fun n => (n : Int)
  | rest => (pyIntDigits rest).map fun n => (n : Int)

/-! ## Python list slicing -/

/-- Normalize one slice bound against a list of length `n`: negative indices
count from the end, and the result is clamped to `[0, n]`. -/
def pySliceNorm (n : Nat) (i : Int) : Nat :=
  if i < 0 then
    (if (n : Int) + i < 0 then 0 else ((n : Int) + i).toNat)
  else
    (if (n : Int) ≤ i then n else i.toNat)

/-- Python `l[start:stop]` (step 1). -/
def pySlice {α : Type} (l : List α) (start stop : Int) : List α :=
  let s := pySliceNorm l.length start
  let e := pySliceNorm l.length stop
  (l.drop s).take (e - s)

/-! ## SHA-256, HMAC-SHA256 and base64

`hashlib.sha256`, `hmac.new(...).digest()` and `base64.b64encode`, the
library primitives called by `verify_mlflow_signature`, embedded as the
standard algorithms (FIPS 180-4, RFC 2104, RFC 4648) over byte lists. -/

/-- Addition of 32-bit words. -/
def add32 (a b : Nat) : Nat := (a + b) % 4294967296

/-- Right rotation of a 32-bit word by `n` bits. -/
def rotr32 (n x : Nat) : Nat := x / 2 ^ n + x % 2 ^ n * 2 ^ (32 - n)

/-- Bitwise complement of a 32-bit word (for words below `2^32` this is
the arithmetic complement). -/
def not32 (x : Nat) : Nat := 4294967295 - x

/-- SHA-256 `Ch(x, y, z)`. -/
def sha256Ch (x y z : Nat) : Nat := x &&& y ^^^ not32 x &&& z

/-- SHA-256 `Maj(x, y, z)`. -/
def sha256Maj (x y z : Nat) : Nat := x &&& y ^^^ x &&& z ^^^ y &&& z

/-- SHA-256 `Σ₀`. -/
def sha256S0 (x : Nat) : Nat := rotr32 2 x ^^^ rotr32 13 x ^^^ rotr32 22 x

/-- SHA-256 `Σ₁`. -/
def sha256S1 (x : Nat) : Nat := rotr32 6 x ^^^ rotr32 11 x ^^^ rotr32 25 x

/-- SHA-256 `σ₀`. -/
def sha256s0 (x : Nat) : Nat := rotr32 7 x ^^^ rotr32 18 x ^^^ x / 8

/-- SHA-256 `σ₁`. -/
def sha256s1 (x : Nat) : Nat := rotr32 17 x ^^^ rotr32 19 x ^^^ x / 1024

/-- The 64 SHA-256 round constants (the FIPS 180-4 values, in decimal). -/
def sha256K : List Nat :=
  [1116352408, 1899447441, 3049323471, 3921009573, 961987163,
   1508970993, 2453635748, 2870763221, 3624381080, 310598401,
   607225278, 1426881987, 1925078388, 2162078206, 2614888103,
   3248222580, 3835390401, 4022224774, 264347078, 604807628,
   770255983, 1249150122, 1555081692, 1996064986, 2554220882,
   2821834349, 2952996808, 3210313671, 3336571891, 3584528711,
   113926993, 338241895, 666307205, 773529912, 1294757372,
   1396182291, 1695183700, 1986661051, 2177026350, 2456956037,
   2730485921, 2820302411, 3259730800, 3345764771, 3516065817,
   3600352804, 4094571909, 275423344, 430227734, 506948616,
   659060556, 883997877, 958139571, 1322822218, 1537002063,
   1747873779, 1955562222, 2024104815, 2227730452, 2361852424,
   2428436474, 2756734187, 3204031479, 3329325298]

/-- The eight SHA-256 working variables. -/
structure Sha256St where
  a : Nat
  b : Nat
  c : Nat
  d : Nat
  e : Nat
  f : Nat
  g : Nat
  h : Nat

/-- The SHA-256 initial hash value. -/
def sha256H0 : Sha256St :=
  Sha256St.mk 1779033703 3144134277 1013904242 2773480762
    1359893119 2600822924 528734635 1541459225

/-- Pad a message to a multiple of 64 bytes: `0x80`, zeros, then the bit
length as 8 big-endian bytes. -/
def sha256Pad (msg : List Nat) : List Nat :=
  let L := msg.length
  let padLen := (119 - L % 64) % 64
  msg ++ 128 :: List.replicate padLen 0 ++
    [8 * L / 2 ^ 56 % 256, 8 * L / 2 ^ 48 % 256, 8 * L / 2 ^ 40 % 256,
     8 * L / 2 ^ 32 % 256, 8 * L / 2 ^ 24 % 256, 8 * L / 2 ^ 16 % 256,
     8 * L / 2 ^ 8 % 256, 8 * L % 256]

/-- Group bytes into big-endian 32-bit words. -/
def bytesToWords32 : List Nat → List Nat
  | a :: b :: c :: d :: rest =>
    (((a * 256 + b) * 256 + c) * 256 + d) :: bytesToWords32 rest
  | _ => []

/-- Extend the message schedule, held most-recent-first, by `fuel` more
words: the head of `rws` is `w[t-1]`, so `w[t-2]`, `w[t-7]`, `w[t-15]` and
`w[t-16]` sit at positions 1, 6, 14 and 15. -/
def sha256ExtendR : Nat → List Nat → List Nat
  | 0, rws => rws
  | fuel + 1, rws =>
    sha256ExtendR fuel
      (add32 (add32 (sha256s1 (rws.getD 1 0)) (rws.getD 6 0))
        (add32 (sha256s0 (rws.getD 14 0)) (rws.getD 15 0)) :: rws)

/-- One SHA-256 round. -/
def sha256Round (st : Sha256St) (k w : Nat) : Sha256St :=
  let t1 := add32 st.h (add32 (sha256S1 st.e)
    (add32 (sha256Ch st.e st.f st.g) (add32 k w)))
  let t2 := add32 (sha256S0 st.a) (sha256Maj st.a st.b st.c)
  Sha256St.mk (add32 t1 t2) st.a st.b st.c (add32 st.d t1) st.e st.f st.g

/-- Run the rounds over the paired round constants and schedule words. -/
def sha256Rounds : List Nat → List Nat → Sha256St → Sha256St
  | k :: ks, w :: ws, st => sha256Rounds ks ws (sha256Round st k w)
  | _, _, st => st

/-- Compress one 16-word block into the running hash. -/
def sha256Compress (h0 : Sha256St) (block : List Nat) : Sha256St :=
  let ws := (sha256ExtendR 48 block.reverse).reverse
  let st := sha256Rounds sha256K ws h0
  Sha256St.mk (add32 h0.a st.a) (add32 h0.b st.b) (add32 h0.c st.c)
    (add32 h0.d st.d) (add32 h0.e st.e) (add32 h0.f st.f)
    (add32 h0.g st.g) (add32 h0.h st.h)

/-- Fold the compression function over `fuel` 16-word blocks. -/
def sha256Blocks : Nat → List Nat → Sha256St → Sha256St
  | 0, _, h => h
  | fuel + 1, ws, h =>
    sha256Blocks fuel (ws.drop 16) (sha256Compress h (ws.take 16))

/-- The four big-endian bytes of a 32-bit word. -/
def word32Bytes (w : Nat) : List Nat :=
  [w / 16777216 % 256, w / 65536 % 256, w / 256 % 256, w % 256]

/-- SHA-256 of a byte list, as the 32 digest bytes. -/
def sha256 (msg : List Nat) : List Nat :=
  let ws := bytesToWords32 (sha256Pad msg)
  let h := sha256Blocks (ws.length / 16) ws sha256H0
  word32Bytes h.a ++ word32Bytes h.b ++ word32Bytes h.c ++
    word32Bytes h.d ++ word32Bytes h.e ++ word32Bytes h.f ++
    word32Bytes h.g ++ word32Bytes h.h

/-- HMAC-SHA256 (RFC 2104): keys longer than the 64-byte block are hashed
first, then zero-padded to 64 bytes. -/
def hmacSha256 (key msg : List Nat) : List Nat :=
  let k0 := if 64 < key.length then sha256 key else key
  let k := k0 ++ List.replicate (64 - k0.length) 0
  sha256 ((k.map fun b => b ^^^ 92) ++
    sha256 ((k.map fun b => b ^^^ 54) ++ msg))

/-- The base64 alphabet. -/
def b64Alphabet : PyStr :=
  "ABCDEFGHIJKLMNOPQRSTUVWXYZabcdefghijklmnopqrstuvwxyz0123456789+/".data

/-- Character for a 6-bit group. -/
def b64Char (n : Nat) : Char := b64Alphabet.getD n 'A'

/-- `base64.b64encode(bytes).decode("utf-8")`: standard base64 with `=`
padding, as a Python string. -/
def b64encode : List Nat → PyStr
  | [] => []
  | [a] => [b64Char (a / 4), b64Char (a % 4 * 16), '=', '=']
  | [a, b] => [b64Char (a / 4), b64Char (a % 4 * 16 + b / 16),
      b64Char (b % 16 * 4), '=']
  | a :: b :: c :: rest =>
    b64Char (a / 4) :: b64Char (a % 4 * 16 + b / 16) ::
      b64Char (b % 16 * 4 + c / 64) :: b64Char (c % 64) :: b64encode rest

/-! ## Signature verification helpers (main.py lines 61-91) -/

/-- `MAX_TIMESTAMP_AGE = 300` seconds. -/
def MAX_TIMESTAMP_AGE : Int := 300

/-- `verify_timestamp_freshness(timestamp_str, max_age)` (main.py 65-75):
parse the timestamp as an integer (a failed parse is the caught
`ValueError`/`TypeError`, hence `false`), and accept iff
`0 <= now - timestamp <= max_age`.  The call to `int(time.time())` is the
explicit parameter `now`. -/
def verify_timestamp_freshness (timestamp_str : PyStr) (now : Int)
    (max_age : Int) : Bool :=
  match pyIntParse timestamp_str with
  | some webhook_timestamp =>
    let age := now - webhook_timestamp
    decide (0 ≤ age ∧ age ≤ max_age)
  | none => false

/-- An ASCII character. -/
def asciiChar (c : Char) : Bool := c.toNat < 128

/-- `hmac.compare_digest` on two Python strings: constant-time equality,
but only defined on ASCII strings — CPython raises
`TypeError: comparing strings with non-ASCII characters is not supported`
when either argument contains a non-ASCII character, modelled as `none`. -/
def pyCompareDigest (a b : PyStr) : Option Bool :=
  if a.all asciiChar && b.all asciiChar then some (a == b)
  else Option.none

/-- `verify_mlflow_signature(payload, signature, secret, delivery_id,
timestamp)` (main.py 78-91): require the literal `v1,` in front
(`signature.startswith("v1,")` is `take 3`), strip it
(`removeprefix("v1,")` is `drop 3`), rebuild the signed content
`f"{delivery_id}.{timestamp}.{payload}"`, HMAC-SHA256 it under the UTF-8
encoded secret, base64 the digest, and compare with
`hmac.compare_digest`.  `some b` is a normal return; `none` is the
`TypeError` that `compare_digest` raises when the signature carries a
non-ASCII character (reachable, since headers are decoded latin-1). -/
def verify_mlflow_signature (payload signature secret delivery_id
    timestamp : PyStr) : Option Bool :=
  if signature.take 3 = "v1,".data then
    let signature_b64 := signature.drop 3
    let signed_content :=
      delivery_id ++ '.' :: timestamp ++ '.' :: payload
    let expected_signature :=
      hmacSha256 (pyEncode secret) (pyEncode signed_content)
    let expected_signature_b64 := b64encode expected_signature
    pyCompareDigest signature_b64 expected_signature_b64
  else some false

/-! ## The data model (models.py) -/

/-- A parsed JSON value, the result of a successful `await request.json()`. -/
inductive Json where
  | null
  | bool (b : Bool)
  | num (n : Int) (frac : List Nat)
  | str (s : PyStr)
  | arr (elems : List Json)
  | obj (fields : List (PyStr × Json))

/-- The `body` field of an entry: parsed JSON, decoded text, or `None`
(the `Any`-typed best-effort capture of main.py lines 101-107). -/
inductive BodyVal where
  | json (j : Json)
  | text (t : PyStr)
  | none

/-- `WebhookEntry` (models.py): one captured webhook call. -/
structure WebhookEntry where
  id : PyStr
  received_at : PyStr
  method : PyStr
  path : PyStr
  client_ip : Option PyStr
  user_agent : Option PyStr
  headers : List (PyStr × PyStr)
  body : BodyVal
  raw_body : Option PyStr

/-! ## The store (main.py line 28)

`store = deque(maxlen=1000)`, newest entry first (`appendleft`). -/

/-- The deque capacity, `maxlen=1000`. -/
def capacity : Nat := 1000

/-- `store.appendleft(entry)` on a `deque(maxlen=1000)`: push at the front;
at capacity the deque silently drops its rightmost (oldest) element. -/
def insertEntry (s : List WebhookEntry) (e : WebhookEntry) :
    List WebhookEntry :=
  if s.length < capacity then e :: s else e :: s.dropLast

/-- `len(store)`. -/
def storeSize (s : List WebhookEntry) : Nat := s.length

/-- `next((e for e in store if e.id == entry_id), None)`: first entry whose
id matches, scanning newest first. -/
def findEntry (s : List WebhookEntry) (entry_id : PyStr) :
    Option WebhookEntry :=
  s.find? fun e => e.id == entry_id

/-- The store after a sequence of inserts into an empty store, first
insert first. -/
def insertAll (es : List WebhookEntry) : List WebhookEntry :=
  es.foldl insertEntry []

/-! ## Python dictionaries

`request.headers` and the verify endpoint's JSON body are string-keyed
dictionaries; construction from pairs is last-value-wins, and `d.get(k)`
returns `None` when absent. -/

/-- `dict(pairs).get(k)`: the value of the last pair with key `k`. -/
def pyDictGet (pairs : List (PyStr × PyStr)) (k : PyStr) : Option PyStr :=
  (pairs.reverse.find? fun p => p.1 == k).map fun p => p.2

/-- Python truthiness of an optional string: `not x` is true for `None`
and for the empty string. -/
def pyFalsy : Option PyStr → Bool
  | Option.none => true
  | some s => s == []

/-- `str.lower()` (ASCII case folding suffices for the header names used). -/
def pyLower (s : PyStr) : PyStr := s.map Char.toLower

/-! ## POST /webhook (main.py 94-128) -/

/-- The body capture of `receive_webhook` (main.py 100-107): the parsed
JSON if `await request.json()` succeeded, else the raw bytes decoded with
`errors="replace"`, else (were that decode to fail) `None`. -/
def captureBody (raw : List Nat) (parsed : Option Json) : BodyVal :=
  match parsed with
  | some j => BodyVal.json j
  | Option.none =>
    match pyBytesDecode true raw with
    | some t => BodyVal.text t
    | Option.none => BodyVal.none

/-- The `WebhookEntry(...)` constructed by `receive_webhook`
(main.py 110-121).  `uuid` is the generated `str(uuid4())` and `now_iso`
the `datetime.now(timezone.utc).isoformat()`; `raw_body` is
`raw.decode(errors="replace")`. -/
def mkWebhookEntry (raw : List Nat) (parsed : Option Json)
    (uuid now_iso method path : PyStr) (client_ip user_agent : Option PyStr)
    (headers : List (PyStr × PyStr)) : WebhookEntry :=
  WebhookEntry.mk uuid now_iso method path client_ip user_agent headers
    (captureBody raw parsed) (pyBytesDecode true raw)

/-- The JSON response of `POST /webhook`: `{"status": "ok", "id": entry.id}`
with HTTP status 200. -/
structure ReceiveResponse where
  status : PyStr
  id : PyStr
deriving DecidableEq

/-- `receive_webhook` (main.py 94-128) as a state-passing operation: build
the entry, `store.appendleft` it under the lock, and answer 200
`{"status": "ok", "id": ...}`.  The handler performs no validation of the
inbound body; the JSON parse outcome is the `parsed` parameter. -/
def receive_webhook (s : List WebhookEntry) (raw : List Nat)
    (parsed : Option Json) (uuid now_iso method path : PyStr)
    (client_ip user_agent : Option PyStr)
    (headers : List (PyStr × PyStr)) :
    List WebhookEntry × ReceiveResponse :=
  let entry := mkWebhookEntry raw parsed uuid now_iso method path client_ip
    user_agent headers
  (insertEntry s entry, ReceiveResponse.mk "ok".data entry.id)

/-! ## Listing endpoints (main.py 131-152 and 175-182) -/

/-- The page slice of `GET /` (main.py 134-139):
`per_page = max(1, min(200, per_page))`, `start = (page - 1) * per_page`,
`end = start + per_page`, `list(store)[start:end]`. -/
def index_entries (s : List WebhookEntry) (page per_page : Int) :
    List WebhookEntry :=
  let pp := max 1 (min 200 per_page)
  pySlice s ((page - 1) * pp) ((page - 1) * pp + pp)

/-- The page slice of `GET /api/webhooks` (main.py 177-181):
`per_page = max(1, min(1000, per_page))`, then the same slice. -/
def api_list_items (s : List WebhookEntry) (page per_page : Int) :
    List WebhookEntry :=
  let pp := max 1 (min 1000 per_page)
  pySlice s ((page - 1) * pp) ((page - 1) * pp + pp)

/-- `GET /api/webhooks` as a state-passing operation: the handler only reads
the store (it copies it under the lock and slices the copy), so the store
component of the result is the input store. -/
def api_list (s : List WebhookEntry) (page per_page : Int) :
    List WebhookEntry × List WebhookEntry :=
  (api_list_items s page per_page, s)

/-- `GET /api/webhooks/{entry_id}` (main.py 185-191) as a state-passing
operation: a linear scan under the lock, no mutation; `none` means the
handler raises the 404 `HTTPException`. -/
def api_get (s : List WebhookEntry) (entry_id : PyStr) :
    Option WebhookEntry × List WebhookEntry :=
  (findEntry s entry_id, s)

/-! ## POST /api/webhooks/{entry_id}/verify (main.py 194-233) -/

/-- Outcome of the verify endpoint: 200 `{"verified": true}`, an
`HTTPException(status_code, detail)`, or an exception that escapes the
handler (`unhandledError`, which FastAPI turns into a 500 response). -/
inductive VerifyResult where
  | verified
  | httpError (status : Nat) (detail : String)
  | unhandledError
deriving DecidableEq

/-- `api_verify` (main.py 194-233).  `data` is the request's JSON body
(a string dictionary), `now` the clock read inside
`verify_timestamp_freshness`.  The checks run in source order: missing
secret (400), unknown id (404), missing signature / delivery id /
timestamp headers (400), stale timestamp (400), bad signature (401). -/
def api_verify (s : List WebhookEntry) (entry_id : PyStr)
    (data : List (PyStr × PyStr)) (now : Int) : VerifyResult :=
  let secret := pyDictGet data "secret".data
  if pyFalsy secret then
    VerifyResult.httpError 400 "Missing 'secret' in request body"
  else
    match findEntry s entry_id with
    | Option.none => VerifyResult.httpError 404 "Webhook not found"
    | some m =>
      let headers := m.headers.map fun p => (pyLower p.1, p.2)
      let sig := pyDictGet headers "x-mlflow-signature".data
      let delivery_id := pyDictGet headers "x-mlflow-delivery-id".data
      let timestamp := pyDictGet headers "x-mlflow-timestamp".data
      if pyFalsy sig then
        VerifyResult.httpError 400
          "Missing signature header (X-MLflow-Signature)"
      else if pyFalsy delivery_id then
        VerifyResult.httpError 400
          "Missing delivery id header (X-MLflow-Delivery-Id)"
      else if pyFalsy timestamp then
        VerifyResult.httpError 400
          "Missing timestamp header (X-MLflow-Timestamp)"
      else if ¬ verify_timestamp_freshness (timestamp.getD []) now
          MAX_TIMESTAMP_AGE then
        VerifyResult.httpError 400
          "Timestamp is too old or invalid (possible replay attack)"
      else
        match verify_mlflow_signature (m.raw_body.getD [])
            (sig.getD []) (secret.getD []) (delivery_id.getD [])
            (timestamp.getD []) with
        | some ok =>
          if ok then VerifyResult.verified
          else VerifyResult.httpError 401 "Invalid signature"
        | Option.none => VerifyResult.unhandledError

/-! ## GET /health (main.py 249-251) and the lock discipline -/

/-- `GET /health`: `{"status": "ok", "received": len(store)}`, computed
without acquiring `store_lock`. -/
def health (s : List WebhookEntry) : PyStr × Nat :=
  ("ok".data, storeSize s)

/-- The handlers' accesses to the shared `store`. -/
inductive StoreOperation where
  | webhookInsert
  | indexList
  | detailsGet
  | apiList
  | apiGet
  | verifyGet
  | healthSize
deriving DecidableEq

/-- Whether the handler wraps its store access in `async with store_lock`:
`receive_webhook` (123), `index` (138), `details` (157), `api_list` (180),
`api_get` (187) and `api_verify` (202) do; `health` (251) reads
`len(store)` with no lock. -/
def acquiresStoreLock : StoreOperation → Bool
  | StoreOperation.healthSize => false
  | _ => true

/-! ## Helper lemmas -/

/-- `Option.map` preserves `isSome`. -/
theorem isSome_of_map {α β : Type} (f : α → β) (o : Option α) :
    (Option.map f o).isSome = o.isSome := by
  cases o <;> rfl

/-- With fuel at least the number of bytes, the replace-mode UTF-8 decoder
always produces a result: every branch either answers directly or recurses
on a strictly shorter suffix with one unit less fuel. -/
theorem pyBytesDecodeAux_isSome : ∀ (fuel : Nat) (bs : List Nat),
    bs.length ≤ fuel → (pyBytesDecodeAux true fuel bs).isSome = true := by
  intro fuel
  induction fuel with
  | zero =>
    intro bs h
    match bs with
    | [] => rfl
    | b :: rest => simp at h
  | succ fuel ih =>
    intro bs h
    match bs with
    | [] => rfl
    | b :: rest =>
      simp only [List.length_cons, Nat.add_le_add_iff_right] at h
      simp only [pyBytesDecodeAux]
      repeat' split
      all_goals
        first
        | rfl
        | exact absurd trivial (by assumption)
        | (rw [isSome_of_map]
           apply ih
           simp_all only [List.length_cons]
           all_goals omega)

/-! ## Claim C10 -/

/-- C10: the "body absent" fallback in webhook ingestion is unreachable.
For every raw byte payload, text decoding with invalid-sequence replacement
succeeds, so the stored entry's body is either the parsed JSON value or the
replacement-decoded text, never the `None` of the final fallback branch. -/
theorem capture_body_never_absent (raw : List Nat) (parsed : Option Json) :
    (pyBytesDecode true raw).isSome = true ∧
      captureBody raw parsed ≠ BodyVal.none := by
  have htot : (pyBytesDecode true raw).isSome = true :=
    pyBytesDecodeAux_isSome raw.length raw le_rfl
  refine ⟨htot, ?_⟩
  cases parsed with
  | some j => exact fun hcontra => BodyVal.noConfusion hcontra
  | none =>
    unfold captureBody
    cases hdec : pyBytesDecode true raw with
    | some t => exact fun hcontra => BodyVal.noConfusion hcontra
    | none => rw [hdec] at htot; exact absurd htot (by simp)

/-! ## Claim C5 -/

/-- C5 counterexample: the health endpoint is a reading operation on the
shared history (it reports `len(store)`), and it does not acquire
`store_lock` (main.py 249-251) — so it is false that every reading
operation acquires the lock. -/
theorem health_size_reads_without_lock :
    acquiresStoreLock StoreOperation.healthSize = false := rfl

/-- C5 (amended): every mutating and reading operation on the shared
history other than the health endpoint's size read wraps its store access
in the single process-wide `store_lock` for its duration. -/
theorem store_ops_acquire_lock (op : StoreOperation)
    (h : op ≠ StoreOperation.healthSize) :
    acquiresStoreLock op = true := by
  cases op <;> first | rfl | exact absurd rfl h

/-- C5 witness: the API listing operation is not the health read, and it
acquires the lock. -/
theorem store_ops_acquire_lock_witness :
    StoreOperation.apiList ≠ StoreOperation.healthSize ∧
      acquiresStoreLock StoreOperation.apiList = true :=
  ⟨by decide, store_ops_acquire_lock StoreOperation.apiList (by decide)⟩

/-! ## Claim C9 -/

/-- C9: in the verify endpoint the missing-secret check precedes the entry
lookup.  Whenever the request body carries no non-empty `"secret"`, the
result is the 400 "Missing 'secret'" error for every store state and every
requested id — in particular also when the id is unknown to the store, so
the 404 branch is never reached without a secret. -/
theorem api_verify_missing_secret_first (s : List WebhookEntry)
    (entry_id : PyStr) (data : List (PyStr × PyStr)) (now : Int)
    (h : pyDictGet data "secret".data = Option.none ∨
      pyDictGet data "secret".data = some []) :
    api_verify s entry_id data now =
      VerifyResult.httpError 400 "Missing 'secret' in request body" := by
  unfold api_verify
  rcases h with h | h <;> rw [h] <;> rfl

/-- C9 witness: an empty body against an empty store (where the id is
certainly unknown) yields the 400 missing-secret error, not the 404. -/
theorem api_verify_missing_secret_first_witness :
    (pyDictGet [] "secret".data = Option.none ∨
      pyDictGet [] "secret".data = some []) ∧
      api_verify [] "i".data [] 0 =
        VerifyResult.httpError 400 "Missing 'secret' in request body" :=
  ⟨Or.inl rfl, api_verify_missing_secret_first [] "i".data [] 0 (Or.inl rfl)⟩

/-! ## Claim C8 -/

/-- C8: reads are idempotent.  `api_list` and `api_get` leave the store
unchanged, and repeating either with no intervening insert returns an
identical result. -/
theorem reads_idempotent (s : List WebhookEntry) (page per_page : Int)
    (entry_id : PyStr) :
    (api_list s page per_page).2 = s ∧
    (api_get s entry_id).2 = s ∧
    (api_list (api_list s page per_page).2 page per_page).1 =
      (api_list s page per_page).1 ∧
    (api_get (api_get s entry_id).2 entry_id).1 =
      (api_get s entry_id).1 :=
  ⟨rfl, rfl, rfl, rfl⟩

/-! ## Claim C3 -/

/-- C3: the freshness check parses the timestamp text as an integer and
accepts iff the age `now - t` lies in `[0, 300]`; it returns false (and,
being a total function, never raises) on any parse failure, and at the
boundaries: a parsed timestamp `now - 300` is fresh, `now - 301` is not,
and the future timestamp `now + 1` is not. -/
theorem freshness_iff_age_in_window (t : PyStr) (now : Int) :
    (∀ ts : Int, pyIntParse t = some ts →
      verify_timestamp_freshness t now 300 =
        decide (0 ≤ now - ts ∧ now - ts ≤ 300) ∧
      (ts = now - 300 → verify_timestamp_freshness t now 300 = true) ∧
      (ts = now - 301 → verify_timestamp_freshness t now 300 = false) ∧
      (ts = now + 1 → verify_timestamp_freshness t now 300 = false)) ∧
    (pyIntParse t = Option.none →
      verify_timestamp_freshness t now 300 = false) := by
  constructor
  · intro ts hts
    have h1 : verify_timestamp_freshness t now 300 =
        decide (0 ≤ now - ts ∧ now - ts ≤ 300) := by
      unfold verify_timestamp_freshness
      rw [hts]
    refine ⟨h1, ?_, ?_, ?_⟩ <;> intro he <;> subst he <;> rw [h1]
    · simp only [decide_eq_true_eq]
      omega
    · simp only [decide_eq_false_iff_not]
      omega
    · simp only [decide_eq_false_iff_not]
      omega
  · intro h
    unfold verify_timestamp_freshness
    rw [h]

/-- C3 witness: `"100"` parses to 100, and at `now = 400` (age exactly
300) the check accepts. -/
theorem freshness_iff_age_in_window_witness :
    pyIntParse "100".data = some 100 ∧
      verify_timestamp_freshness "100".data 400 300 = true :=
  ⟨by decide,
    ((freshness_iff_age_in_window "100".data 400).1 100 (by decide)).2.1
      (by decide)⟩

/-! ## Claim C7 -/

/-- Length bound for a Python slice whose bounds sit on one side of zero
(so the two bounds are normalized with the same origin): at most
`stop - start` elements. -/
theorem pySlice_length_le {α : Type} (l : List α) (a b : Int)
    (h : 0 ≤ a ∧ 0 ≤ b ∨ a < 0 ∧ b ≤ 0) :
    (pySlice l a b).length ≤ (b - a).toNat := by
  unfold pySlice pySliceNorm
  simp only [List.length_take, List.length_drop]
  rcases h with ⟨h1, h2⟩ | ⟨h1, h2⟩ <;> split_ifs <;> omega

/-- The slice taken by both listing handlers, with the clamped `per_page`
value `m`, has at most `m` entries. -/
theorem listing_slice_length_le (s : List WebhookEntry) (page m : Int)
    (hm : 1 ≤ m) :
    (pySlice s ((page - 1) * m) ((page - 1) * m + m)).length ≤ m.toNat := by
  have hcase : 0 ≤ (page - 1) * m ∧ 0 ≤ (page - 1) * m + m ∨
      (page - 1) * m < 0 ∧ (page - 1) * m + m ≤ 0 := by
    rcases le_or_lt 1 page with hp | hp
    · have ha : 0 ≤ (page - 1) * m := mul_nonneg (by omega) (by omega)
      exact Or.inl ⟨ha, by omega⟩
    · have hm1 : (page - 1) * m ≤ -1 * m :=
        mul_le_mul_of_nonneg_right (by omega) (by omega)
      exact Or.inr ⟨by omega, by omega⟩
  have hb := pySlice_length_le s ((page - 1) * m) ((page - 1) * m + m) hcase
  omega

/-- C7: caller-supplied `per_page` values are clamped to `[1, 200]` for the
UI listing and `[1, 1000]` for the API listing, and the number of entries
either listing returns never exceeds those maxima, whatever the caller
sent. -/
theorem per_page_clamped (s : List WebhookEntry) (page per_page : Int) :
    1 ≤ max 1 (min 200 per_page) ∧ max 1 (min 200 per_page) ≤ 200 ∧
    1 ≤ max 1 (min 1000 per_page) ∧ max 1 (min 1000 per_page) ≤ 1000 ∧
    (index_entries s page per_page).length ≤ 200 ∧
    (api_list_items s page per_page).length ≤ 1000 := by
  refine ⟨?_, ?_, ?_, ?_, ?_, ?_⟩
  · omega
  · omega
  · omega
  · omega
  · have h := listing_slice_length_le s page (max 1 (min 200 per_page))
      (by omega)
    have hle : (max 1 (min 200 per_page)).toNat ≤ 200 := by omega
    calc (index_entries s page per_page).length
        ≤ (max 1 (min 200 per_page)).toNat := h
      _ ≤ 200 := hle
  · have h := listing_slice_length_le s page (max 1 (min 1000 per_page))
      (by omega)
    have hle : (max 1 (min 1000 per_page)).toNat ≤ 1000 := by omega
    calc (api_list_items s page per_page).length
        ≤ (max 1 (min 1000 per_page)).toNat := h
      _ ≤ 1000 := hle

/-! ## Claim C1 -/

/-- For a store within capacity, `appendleft` is push-at-front truncated to
the capacity. -/
theorem insertEntry_eq_take (s : List WebhookEntry) (e : WebhookEntry)
    (h : s.length ≤ capacity) :
    insertEntry s e = (e :: s).take capacity := by
  unfold insertEntry
  rcases lt_or_eq_of_le h with h1 | h1
  · rw [if_pos h1, List.take_of_length_le (by simp; omega)]
  · rw [if_neg (by omega)]
    have hlen : capacity = (e :: s).length - 1 := by simp [← h1]
    rw [hlen, ← List.dropLast_eq_take]
    match s, h1 with
    | x :: xs, _ => rw [List.dropLast_cons₂]

/-- Inserting into a store within capacity stays within capacity. -/
theorem insertEntry_length_le (s : List WebhookEntry) (e : WebhookEntry)
    (h : s.length ≤ capacity) :
    (insertEntry s e).length ≤ capacity := by
  rw [insertEntry_eq_take s e h, List.length_take]
  omega

/-- Truncating the back half of an append before truncating the whole
changes nothing. -/
theorem take_append_take (A B : List WebhookEntry) (n : Nat) :
    (A ++ B.take n).take n = (A ++ B).take n := by
  rw [List.take_append_eq_append_take, List.take_append_eq_append_take,
    List.take_take]
  have hmin : (n - A.length) ⊓ n = n - A.length := by omega
  rw [hmin]

/-- Folding inserts over a store within capacity yields the reversed
insert sequence in front of the store, truncated to capacity. -/
theorem foldl_insertEntry (es : List WebhookEntry) :
    ∀ (s : List WebhookEntry), s.length ≤ capacity →
      es.foldl insertEntry s = (es.reverse ++ s).take capacity := by
  induction es with
  | nil =>
    intro s h
    simp only [List.foldl_nil, List.reverse_nil, List.nil_append]
    rw [List.take_of_length_le h]
  | cons e es ih =>
    intro s h
    rw [List.foldl_cons, ih (insertEntry s e) (insertEntry_length_le s e h),
      insertEntry_eq_take s e h, take_append_take, List.reverse_cons,
      List.append_assoc]
    rfl

/-- The store after any insert sequence: the most recent `capacity`
entries, newest first. -/
theorem insertAll_eq (es : List WebhookEntry) :
    insertAll es = es.reverse.take capacity := by
  have h := foldl_insertEntry es [] (by simp [capacity])
  simpa using h

/-- C1: for every sequence of more than `capacity` (1000) inserts, the
size equals the capacity and listing the first 1000 entries returns
exactly the last 1000 inserted entries, newest first; the store length
never exceeds the capacity, and an insert at capacity evicts the oldest
(tail) entry. -/
theorem store_bounded_evicts_oldest (es : List WebhookEntry)
    (h : capacity < es.length) :
    storeSize (insertAll es) = capacity ∧
    api_list_items (insertAll es) 1 1000 =
      (es.drop (es.length - capacity)).reverse ∧
    (∀ es' : List WebhookEntry, storeSize (insertAll es') ≤ capacity) ∧
    (∀ (s : List WebhookEntry) (e : WebhookEntry), s.length = capacity →
      insertEntry s e = e :: s.dropLast) := by
  have hsize : storeSize (insertAll es) = capacity := by
    rw [storeSize, insertAll_eq, List.length_take, List.length_reverse]
    omega
  refine ⟨hsize, ?_, ?_, ?_⟩
  · have hslice : api_list_items (insertAll es) 1 1000 = insertAll es := by
      show pySlice (insertAll es) ((1 - 1) * max 1 (min 1000 1000))
        ((1 - 1) * max 1 (min 1000 1000) + max 1 (min 1000 1000)) =
        insertAll es
      have hlen : (insertAll es).length = 1000 := hsize
      unfold pySlice pySliceNorm
      rw [hlen]
      norm_num
      omega
    rw [hslice, insertAll_eq]
    have hrt : (es.reverse.take capacity).reverse =
        es.drop (es.length - capacity) := by
      rw [List.reverse_take, List.reverse_reverse, List.length_reverse]
    rw [← hrt, List.reverse_reverse]
  · intro es'
    rw [storeSize, insertAll_eq, List.length_take]
    omega
  · intro s e hs
    unfold insertEntry
    rw [if_neg (by omega)]

/-- An entry value for concrete stores. -/
def emptyEntry : WebhookEntry :=
  WebhookEntry.mk [] [] [] [] Option.none Option.none [] BodyVal.none
    Option.none

/-- C1 witness: 1001 inserts into the empty store leave exactly 1000
entries, and one more insert at capacity drops the tail. -/
theorem store_bounded_evicts_oldest_witness :
    capacity < (List.replicate 1001 emptyEntry).length ∧
    (storeSize (insertAll (List.replicate 1001 emptyEntry)) = capacity ∧
     api_list_items (insertAll (List.replicate 1001 emptyEntry)) 1 1000 =
       ((List.replicate 1001 emptyEntry).drop
         ((List.replicate 1001 emptyEntry).length - capacity)).reverse ∧
     (∀ es' : List WebhookEntry, storeSize (insertAll es') ≤ capacity) ∧
     (∀ (s : List WebhookEntry) (e : WebhookEntry), s.length = capacity →
       insertEntry s e = e :: s.dropLast)) :=
  ⟨by rw [List.length_replicate]; decide,
    store_bounded_evicts_oldest (List.replicate 1001 emptyEntry)
      (by rw [List.length_replicate]; decide)⟩

/-! ## Claim C4 -/

/-- C4: `get(id)` is a linear scan returning the first stored entry whose
id matches; it returns absent — a value, never an exception — exactly when
no entry matches; and an entry whose id is unique in the store is returned
exactly as stored while present, absent once no entry carries its id. -/
theorem get_linear_scan (s : List WebhookEntry) (entry_id : PyStr)
    (e : WebhookEntry) :
    ((api_get s entry_id).1 = Option.none ↔ ∀ x ∈ s, x.id ≠ entry_id) ∧
    ((api_get s entry_id).1 = some e → e.id = entry_id ∧ e ∈ s) ∧
    (∀ (x : WebhookEntry) (xs : List WebhookEntry),
      (api_get (x :: xs) entry_id).1 =
        if x.id = entry_id then some x else (api_get xs entry_id).1) ∧
    (e ∈ s → (∀ x ∈ s, x.id = e.id → x = e) →
      (api_get s e.id).1 = some e) := by
  refine ⟨?_, ?_, ?_, ?_⟩
  · show findEntry s entry_id = Option.none ↔ _
    unfold findEntry
    rw [List.find?_eq_none]
    constructor
    · intro h x hx
      have := h x hx
      simpa using this
    · intro h x hx
      simpa using h x hx
  · intro h
    have h1 := List.find?_some h
    have h2 := List.mem_of_find?_eq_some h
    exact ⟨by simpa using h1, h2⟩
  · intro x xs
    show findEntry (x :: xs) entry_id = _
    unfold findEntry
    by_cases hx : x.id = entry_id
    · rw [List.find?_cons_of_pos _ (by simpa using hx), if_pos hx]
    · rw [List.find?_cons_of_neg _ (by simpa using hx), if_neg hx]
      rfl
  · intro hmem huniq
    show findEntry s e.id = some e
    unfold findEntry
    induction s with
    | nil => cases hmem
    | cons x xs ih =>
      by_cases hx : x.id = e.id
      · have hxe : x = e := huniq x (List.mem_cons_self x xs) hx
        rw [List.find?_cons_of_pos _ (by simpa using hx), hxe]
      · have hmem' : e ∈ xs := by
          rcases List.mem_cons.mp hmem with h | h
          · exact absurd (show x.id = e.id by rw [h]) hx
          · exact h
        rw [List.find?_cons_of_neg _ (by simpa using hx)]
        exact ih hmem' fun y hy => huniq y (List.mem_cons_of_mem x hy)

/-- An entry with id `"a"`. -/
def entryA : WebhookEntry :=
  WebhookEntry.mk "a".data [] [] [] Option.none Option.none [] BodyVal.none
    Option.none

/-- An entry with id `"b"`. -/
def entryB : WebhookEntry :=
  WebhookEntry.mk "b".data [] [] [] Option.none Option.none [] BodyVal.none
    Option.none

/-- C4 witness: in the two-entry store `[entryA, entryB]`, getting
`entryA.id` returns `entryA` exactly. -/
theorem get_linear_scan_witness :
    entryA ∈ [entryA, entryB] ∧
      (api_get [entryA, entryB] entryA.id).1 = some entryA := by
  have hmem : entryA ∈ [entryA, entryB] := List.mem_cons_self _ _
  have huniq : ∀ x ∈ [entryA, entryB], x.id = entryA.id → x = entryA := by
    intro x hx hid
    rcases List.mem_cons.mp hx with h | h
    · exact h
    · rw [List.mem_singleton.mp h] at hid
      exact absurd hid (by simp [entryA, entryB])
  exact ⟨hmem,
    (get_linear_scan [entryA, entryB] entryA.id entryA).2.2.2 hmem huniq⟩

/-! ## Claim C6 -/

/-- C6: `POST /webhook` never fails validation: for every inbound body it
answers 200 `{"status": "ok", "id": ...}` and stores the entry; the stored
body is the parsed JSON value when the JSON parse succeeded, and degrades
to the raw bytes decoded with invalid-sequence replacement when it
failed. -/
theorem receive_webhook_always_ok (s : List WebhookEntry) (raw : List Nat)
    (parsed : Option Json) (uuid now_iso method path : PyStr)
    (client_ip user_agent : Option PyStr)
    (headers : List (PyStr × PyStr)) :
    (receive_webhook s raw parsed uuid now_iso method path client_ip
        user_agent headers).2 = ReceiveResponse.mk "ok".data uuid ∧
    (receive_webhook s raw parsed uuid now_iso method path client_ip
        user_agent headers).1 =
      insertEntry s (mkWebhookEntry raw parsed uuid now_iso method path
        client_ip user_agent headers) ∧
    (∀ j : Json, parsed = some j →
      (mkWebhookEntry raw parsed uuid now_iso method path client_ip
        user_agent headers).body = BodyVal.json j) ∧
    (parsed = Option.none → ∃ t : PyStr, pyBytesDecode true raw = some t ∧
      (mkWebhookEntry raw parsed uuid now_iso method path client_ip
        user_agent headers).body = BodyVal.text t) := by
  refine ⟨rfl, rfl, ?_, ?_⟩
  · intro j hj
    show captureBody raw parsed = BodyVal.json j
    rw [hj]
    rfl
  · intro hnone
    have htot : (pyBytesDecode true raw).isSome = true :=
      pyBytesDecodeAux_isSome raw.length raw le_rfl
    cases hdec : pyBytesDecode true raw with
    | none => rw [hdec] at htot; exact absurd htot (by simp)
    | some t =>
      refine ⟨t, rfl, ?_⟩
      show captureBody raw parsed = BodyVal.text t
      rw [hnone]
      unfold captureBody
      rw [hdec]

/-- C6 witness: bytes `"hi"` with a failed JSON parse are stored as the
decoded text. -/
theorem receive_webhook_always_ok_witness :
    (Option.none : Option Json) = Option.none ∧
    ∃ t : PyStr, pyBytesDecode true [104, 105] = some t ∧
      (mkWebhookEntry [104, 105] Option.none "u".data [] [] [] Option.none
        Option.none []).body = BodyVal.text t :=
  ⟨rfl,
    (receive_webhook_always_ok [] [104, 105] Option.none "u".data [] [] []
      Option.none Option.none []).2.2.2 rfl⟩

/-! ## Claim C2 -/

/-- The base64-encoded HMAC-SHA256 digest that `verify_mlflow_signature`
expects after the `v1,` prefix. -/
def expectedSigB64 (payload secret delivery_id timestamp : PyStr) : PyStr :=
  b64encode (hmacSha256 (pyEncode secret)
    (pyEncode (delivery_id ++ '.' :: timestamp ++ '.' :: payload)))

/-- Every character the base64 lookup can produce is ASCII. -/
theorem b64Char_ascii (n : Nat) : asciiChar (b64Char n) = true := by
  have hall : ∀ c ∈ b64Alphabet, asciiChar c = true := by decide
  unfold b64Char
  rw [List.getD_eq_getElem?_getD]
  rcases h : b64Alphabet[n]? with _ | c
  · decide
  · exact hall c (List.getElem?_mem h)

/-- base64 output is pure ASCII. -/
theorem b64encode_ascii : ∀ (n : Nat) (bs : List Nat), bs.length ≤ n →
    (b64encode bs).all asciiChar = true := by
  intro n
  induction n with
  | zero =>
    intro bs h
    match bs with
    | [] => rfl
    | b :: rest => simp at h
  | succ n ih =>
    intro bs h
    match bs with
    | [] => rfl
    | [a] =>
      simp only [b64encode, List.all_cons, List.all_nil, Bool.and_eq_true]
      exact ⟨b64Char_ascii _, b64Char_ascii _, by decide, by decide,
        trivial⟩
    | [a, b] =>
      simp only [b64encode, List.all_cons, List.all_nil, Bool.and_eq_true]
      exact ⟨b64Char_ascii _, b64Char_ascii _, b64Char_ascii _, by decide,
        trivial⟩
    | a :: b :: c :: rest =>
      simp only [b64encode, List.all_cons, Bool.and_eq_true]
      refine ⟨b64Char_ascii _, b64Char_ascii _, b64Char_ascii _,
        b64Char_ascii _, ?_⟩
      apply ih
      simp only [List.length_cons] at h
      omega

/-- `compare_digest` against an ASCII reference answers `some true`
exactly on the equal string. -/
theorem pyCompareDigest_some_true_iff (a b : PyStr)
    (hb : b.all asciiChar = true) :
    pyCompareDigest a b = some true ↔ a = b := by
  unfold pyCompareDigest
  constructor
  · intro h
    split at h
    · simpa using h
    · exact absurd h (by simp)
  · intro h
    subst h
    rw [if_pos (by rw [hb]; rfl)]
    simp

/-- `verify_mlflow_signature` answers `some true` for exactly one
signature string: the `v1,` prefix followed by the base64 HMAC digest. -/
theorem verify_some_true_iff (payload sig secret delivery_id
    timestamp : PyStr) :
    verify_mlflow_signature payload sig secret delivery_id timestamp =
        some true ↔
      sig = "v1,".data ++
        expectedSigB64 payload secret delivery_id timestamp := by
  have hE : (expectedSigB64 payload secret delivery_id timestamp).all
      asciiChar = true :=
    b64encode_ascii _ _ le_rfl
  have h3 : ("v1,".data : PyStr).length = 3 := rfl
  unfold verify_mlflow_signature
  by_cases hpre : sig.take 3 = "v1,".data
  · rw [if_pos hpre]
    show pyCompareDigest (sig.drop 3)
        (expectedSigB64 payload secret delivery_id timestamp) = some true ↔ _
    rw [pyCompareDigest_some_true_iff _ _ hE]
    constructor
    · intro h
      conv_lhs => rw [← List.take_append_drop 3 sig]
      rw [hpre, h]
    · intro h
      calc sig.drop 3
          = (("v1,".data : PyStr) ++
              expectedSigB64 payload secret delivery_id timestamp).drop 3 :=
            by rw [h]
        _ = expectedSigB64 payload secret delivery_id timestamp := by
            rw [← h3, List.drop_left]
  · rw [if_neg hpre]
    constructor
    · intro h
      exact absurd h (by simp)
    · intro h
      exfalso
      apply hpre
      rw [h, ← h3, List.take_left]

/-- The correct signature header for the spec's concrete instance: secret
`"s"`, delivery id `"d"`, timestamp `"0"`, payload `"p"`.  The base64 text
is the standard HMAC-SHA256 test-vector value for key `"s"` and message
`"d.0.p"`; `specSig_verifies` checks it against the embedded HMAC, so this
literal equals `"v1,".data ++ expectedSigB64 "p" "s" "d" "0"`. -/
def specSig : PyStr :=
  "v1,3158LuZF4OX8WxLLtfA40EPKR5T1Dd/UZR0j+m26Q3I=".data

/-- All strings obtained from `s` by flipping one bit of one byte (the
characters involved are ASCII, so a code-point flip is a byte flip of the
UTF-8 form, and of the latin-1 header bytes). -/
def oneByteFlips (s : PyStr) : List PyStr :=
  (List.range s.length).flatMap fun i =>
    (List.range 8).map fun b =>
      s.take i ++
        Char.ofNat ((s.getD i 'A').toNat ^^^ (1 <<< b)) :: s.drop (i + 1)

/-- At the spec's concrete instance, the correct signature verifies. -/
theorem specSig_verifies :
    verify_mlflow_signature "p".data specSig "s".data "d".data "0".data =
      some true := by
  decide

/-- Flipping bit 0 of the payload byte defeats verification. -/
theorem flip_payload_0 :
    verify_mlflow_signature [Char.ofNat 113] specSig "s".data "d".data "0".data =
      some false := by
  decide

/-- Flipping bit 1 of the payload byte defeats verification. -/
theorem flip_payload_1 :
    verify_mlflow_signature [Char.ofNat 114] specSig "s".data "d".data "0".data =
      some false := by
  decide

/-- Flipping bit 2 of the payload byte defeats verification. -/
theorem flip_payload_2 :
    verify_mlflow_signature [Char.ofNat 116] specSig "s".data "d".data "0".data =
      some false := by
  decide

/-- Flipping bit 3 of the payload byte defeats verification. -/
theorem flip_payload_3 :
    verify_mlflow_signature [Char.ofNat 120] specSig "s".data "d".data "0".data =
      some false := by
  decide

/-- Flipping bit 4 of the payload byte defeats verification. -/
theorem flip_payload_4 :
    verify_mlflow_signature [Char.ofNat 96] specSig "s".data "d".data "0".data =
      some false := by
  decide

/-- Flipping bit 5 of the payload byte defeats verification. -/
theorem flip_payload_5 :
    verify_mlflow_signature [Char.ofNat 80] specSig "s".data "d".data "0".data =
      some false := by
  decide

/-- Flipping bit 6 of the payload byte defeats verification. -/
theorem flip_payload_6 :
    verify_mlflow_signature [Char.ofNat 48] specSig "s".data "d".data "0".data =
      some false := by
  decide

/-- Flipping bit 7 of the payload byte defeats verification. -/
theorem flip_payload_7 :
    verify_mlflow_signature [Char.ofNat 240] specSig "s".data "d".data "0".data =
      some false := by
  decide

/-- Flipping bit 0 of the delivery id byte defeats verification. -/
theorem flip_delivery_0 :
    verify_mlflow_signature "p".data specSig "s".data [Char.ofNat 101] "0".data =
      some false := by
  decide

/-- Flipping bit 1 of the delivery id byte defeats verification. -/
theorem flip_delivery_1 :
    verify_mlflow_signature "p".data specSig "s".data [Char.ofNat 102] "0".data =
      some false := by
  decide

/-- Flipping bit 2 of the delivery id byte defeats verification. -/
theorem flip_delivery_2 :
    verify_mlflow_signature "p".data specSig "s".data [Char.ofNat 96] "0".data =
      some false := by
  decide

/-- Flipping bit 3 of the delivery id byte defeats verification. -/
theorem flip_delivery_3 :
    verify_mlflow_signature "p".data specSig "s".data [Char.ofNat 108] "0".data =
      some false := by
  decide

/-- Flipping bit 4 of the delivery id byte defeats verification. -/
theorem flip_delivery_4 :
    verify_mlflow_signature "p".data specSig "s".data [Char.ofNat 116] "0".data =
      some false := by
  decide

/-- Flipping bit 5 of the delivery id byte defeats verification. -/
theorem flip_delivery_5 :
    verify_mlflow_signature "p".data specSig "s".data [Char.ofNat 68] "0".data =
      some false := by
  decide

/-- Flipping bit 6 of the delivery id byte defeats verification. -/
theorem flip_delivery_6 :
    verify_mlflow_signature "p".data specSig "s".data [Char.ofNat 36] "0".data =
      some false := by
  decide

/-- Flipping bit 7 of the delivery id byte defeats verification. -/
theorem flip_delivery_7 :
    verify_mlflow_signature "p".data specSig "s".data [Char.ofNat 228] "0".data =
      some false := by
  decide

/-- Flipping bit 0 of the timestamp byte defeats verification. -/
theorem flip_timestamp_0 :
    verify_mlflow_signature "p".data specSig "s".data "d".data [Char.ofNat 49] =
      some false := by
  decide

/-- Flipping bit 1 of the timestamp byte defeats verification. -/
theorem flip_timestamp_1 :
    verify_mlflow_signature "p".data specSig "s".data "d".data [Char.ofNat 50] =
      some false := by
  decide

/-- Flipping bit 2 of the timestamp byte defeats verification. -/
theorem flip_timestamp_2 :
    verify_mlflow_signature "p".data specSig "s".data "d".data [Char.ofNat 52] =
      some false := by
  decide

/-- Flipping bit 3 of the timestamp byte defeats verification. -/
theorem flip_timestamp_3 :
    verify_mlflow_signature "p".data specSig "s".data "d".data [Char.ofNat 56] =
      some false := by
  decide

/-- Flipping bit 4 of the timestamp byte defeats verification. -/
theorem flip_timestamp_4 :
    verify_mlflow_signature "p".data specSig "s".data "d".data [Char.ofNat 32] =
      some false := by
  decide

/-- Flipping bit 5 of the timestamp byte defeats verification. -/
theorem flip_timestamp_5 :
    verify_mlflow_signature "p".data specSig "s".data "d".data [Char.ofNat 16] =
      some false := by
  decide

/-- Flipping bit 6 of the timestamp byte defeats verification. -/
theorem flip_timestamp_6 :
    verify_mlflow_signature "p".data specSig "s".data "d".data [Char.ofNat 112] =
      some false := by
  decide

/-- Flipping bit 7 of the timestamp byte defeats verification. -/
theorem flip_timestamp_7 :
    verify_mlflow_signature "p".data specSig "s".data "d".data [Char.ofNat 176] =
      some false := by
  decide

/-- Every one-byte (bit) flip of the payload defeats verification at
the spec's concrete instance. -/
theorem flips_payload_fail : ∀ x2 ∈ oneByteFlips "p".data,
    verify_mlflow_signature x2 specSig "s".data "d".data "0".data =
      some false := by
  intro x2 hx2
  have e : oneByteFlips "p".data =
      [[Char.ofNat 113], [Char.ofNat 114], [Char.ofNat 116], [Char.ofNat 120], [Char.ofNat 96], [Char.ofNat 80], [Char.ofNat 48], [Char.ofNat 240]] := by
    decide
  rw [e] at hx2
  simp only [List.mem_cons, List.not_mem_nil, or_false] at hx2
  rcases hx2 with rfl | rfl | rfl | rfl | rfl | rfl | rfl | rfl
  exacts [flip_payload_0, flip_payload_1, flip_payload_2, flip_payload_3, flip_payload_4, flip_payload_5, flip_payload_6, flip_payload_7]

/-- Every one-byte (bit) flip of the delivery id defeats verification
at the spec's concrete instance. -/
theorem flips_delivery_fail : ∀ x2 ∈ oneByteFlips "d".data,
    verify_mlflow_signature "p".data specSig "s".data x2 "0".data =
      some false := by
  intro x2 hx2
  have e : oneByteFlips "d".data =
      [[Char.ofNat 101], [Char.ofNat 102], [Char.ofNat 96], [Char.ofNat 108], [Char.ofNat 116], [Char.ofNat 68], [Char.ofNat 36], [Char.ofNat 228]] := by
    decide
  rw [e] at hx2
  simp only [List.mem_cons, List.not_mem_nil, or_false] at hx2
  rcases hx2 with rfl | rfl | rfl | rfl | rfl | rfl | rfl | rfl
  exacts [flip_delivery_0, flip_delivery_1, flip_delivery_2, flip_delivery_3, flip_delivery_4, flip_delivery_5, flip_delivery_6, flip_delivery_7]

/-- Every one-byte (bit) flip of the timestamp defeats verification at
the spec's concrete instance. -/
theorem flips_timestamp_fail : ∀ x2 ∈ oneByteFlips "0".data,
    verify_mlflow_signature "p".data specSig "s".data "d".data x2 =
      some false := by
  intro x2 hx2
  have e : oneByteFlips "0".data =
      [[Char.ofNat 49], [Char.ofNat 50], [Char.ofNat 52], [Char.ofNat 56], [Char.ofNat 32], [Char.ofNat 16], [Char.ofNat 112], [Char.ofNat 176]] := by
    decide
  rw [e] at hx2
  simp only [List.mem_cons, List.not_mem_nil, or_false] at hx2
  rcases hx2 with rfl | rfl | rfl | rfl | rfl | rfl | rfl | rfl
  exacts [flip_timestamp_0, flip_timestamp_1, flip_timestamp_2, flip_timestamp_3, flip_timestamp_4, flip_timestamp_5, flip_timestamp_6, flip_timestamp_7]

/-- `specSig` with bit 7 of its fourth byte (the first base64 character)
flipped; the flipped byte reaches the handler as the latin-1 character
U+00B3, which is not ASCII. -/
def specSigBit7Flip : PyStr :=
  specSig.take 3 ++ Char.ofNat 179 :: specSig.drop 4

/-- C2 counterexample: flipping one byte of a verifying signature does not
always make verification return false — a bit-7 flip makes the signature
non-ASCII, `hmac.compare_digest` raises `TypeError`, and
`verify_mlflow_signature` raises (`none`) instead of returning false. -/
theorem verify_flip_signature_raises :
    specSigBit7Flip ∈ oneByteFlips specSig ∧
    verify_mlflow_signature "p".data specSig "s".data "d".data "0".data =
      some true ∧
    verify_mlflow_signature "p".data specSigBit7Flip "s".data "d".data
      "0".data = Option.none := by
  refine ⟨by decide, specSig_verifies, by decide⟩

/-- C2 (amended): `verify_mlflow_signature` returns true iff the signature
is the literal prefix `v1,` followed by the base64 HMAC-SHA256 of
`delivery_id.timestamp.payload` under the secret; it returns false
whenever the signature does not start with `v1,`; when the correct
signature verifies, any other signature string — in particular any
one-byte flip of the signature — either returns false or raises the
`compare_digest` `TypeError`, never true; and at the spec's concrete
instance (secret `"s"`, delivery `"d"`, timestamp `"0"`, payload `"p"`)
the correct signature verifies while every one-byte flip of the payload,
delivery id or timestamp makes verification return false. -/
theorem verify_signature_characterization
    (payload signature secret delivery_id timestamp : PyStr) :
    (verify_mlflow_signature payload signature secret delivery_id
        timestamp = some true ↔
      signature = "v1,".data ++
        expectedSigB64 payload secret delivery_id timestamp) ∧
    (signature.take 3 ≠ "v1,".data →
      verify_mlflow_signature payload signature secret delivery_id
        timestamp = some false) ∧
    (∀ sig2 : PyStr, sig2 ≠ signature →
      verify_mlflow_signature payload signature secret delivery_id
        timestamp = some true →
      verify_mlflow_signature payload sig2 secret delivery_id timestamp =
        some false ∨
      verify_mlflow_signature payload sig2 secret delivery_id timestamp =
        Option.none) ∧
    verify_mlflow_signature "p".data specSig "s".data "d".data "0".data =
      some true ∧
    (∀ p2 ∈ oneByteFlips "p".data,
      verify_mlflow_signature p2 specSig "s".data "d".data "0".data =
        some false) ∧
    (∀ d2 ∈ oneByteFlips "d".data,
      verify_mlflow_signature "p".data specSig "s".data d2 "0".data =
        some false) ∧
    (∀ t2 ∈ oneByteFlips "0".data,
      verify_mlflow_signature "p".data specSig "s".data "d".data t2 =
        some false) := by
  refine ⟨verify_some_true_iff payload signature secret delivery_id
      timestamp,
    ?_, ?_, specSig_verifies, flips_payload_fail, flips_delivery_fail,
    flips_timestamp_fail⟩
  · intro h
    unfold verify_mlflow_signature
    rw [if_neg h]
  · intro sig2 hne h1
    rcases h2 : verify_mlflow_signature payload sig2 secret delivery_id
        timestamp with _ | b
    · exact Or.inr rfl
    · cases b with
      | false => exact Or.inl rfl
      | true =>
        exfalso
        have e1 := (verify_some_true_iff payload signature secret
          delivery_id timestamp).mp h1
        have e2 := (verify_some_true_iff payload sig2 secret delivery_id
          timestamp).mp h2
        exact hne (e2.trans e1.symm)

/-- C2 witness: a signature without the `v1,` prefix is rejected. -/
theorem verify_signature_characterization_witness :
    ("x".data : PyStr).take 3 ≠ "v1,".data ∧
      verify_mlflow_signature "p".data "x".data "s".data "d".data "0".data =
        some false :=
  ⟨by decide,
    (verify_signature_characterization "p".data "x".data "s".data "d".data
      "0".data).2.1 (by decide)⟩

end EchoService
